import Mathlib

/-!
Verification of the ZUGFeRD invoice viewer's extraction core.

The development shallowly embeds the two source modules:

* `src/zugferdParser.ts` (in the repository the parser shares a file with
  the invoice template; the extraction functions are `dig`, `text`,
  `formatDate`, `parseAddress`, `asArray`, `isZugferdXml`,
  `parseZugferdXml`),
* `src/pdfReader.ts` (`extractXmlAttachment`).

Modelling choices, in order of appearance:

* `JVal` is the value universe produced by the upstream XML parser
  (fast-xml-parser with `ignoreAttributes: false`,
  `attributeNamePrefix: "@_"`, `removeNSPrefix: true`, and a fixed
  `isArray` allow-list).  With that configuration the parser produces
  only strings, numbers, booleans, arrays and plain objects; it never
  produces `null` or `undefined` values inside the tree, so `JVal` has
  no null constructor and "undefined" is `Option.none` one level up.
  Numbers are modelled as integers; the claims under verification never
  depend on fractional numeric tag values.
* JavaScript member access `v[key]` is modelled by `jsGet` as own-property
  lookup: object key lookup, array lookup by canonical decimal index or
  by `length`.  Prototype-chain properties (array/object methods) are out
  of scope; none of the extractor's fixed key names collides with them.
* The XML parser itself is an external library (out of scope per the
  spec); a parse outcome is an input of type `Except Unit JVal`, where
  `Except.error` stands for a parser exception on syntactically invalid
  XML and `Except.ok` carries the parsed tree.  `isZugferdXml` catches
  the exception (source: try/catch), `parseZugferdXml` propagates it.
* pdf-lib is likewise external; the PDF object graph is a value of
  `PDFObject`, carrying decoded text directly (the byte-level UTF-8
  decode is the library's).  pdf-lib's typed lookup
  `lookup(key, PDFDict)` / `lookup(index, PDFDict)` throws
  UnexpectedObjectTypeError when the entry is missing or of a different
  type (the non-throwing variant is lookupMaybe, which the source does
  not use), while untyped `lookup(key)` and out-of-range array reads
  yield undefined.  The throwing path is modelled in `Except`, so the
  embedded locator returns `Except Unit (Option String)`: error for the
  library exception, `Option` for found/absent.
-/

inductive JVal where
  | str (s : String)
  | num (n : Int)
  | bool (b : Bool)
  | arr (elems : List JVal)
  | obj (entries : List (String × JVal))

/-- First-match association-list lookup; JavaScript objects have distinct
keys, so first match is exact. -/
def assocGet : List (String × JVal) → String → Option JVal
  | [], _ => none
  | (k, v) :: rest, key => if k = key then some v else assocGet rest key

/-- A list of characters spelling a canonical decimal numeral (the form
`Nat.toString` produces: no sign, no leading zeros except "0" itself).
JavaScript array indexing `a[k]` hits an element exactly when `k` is the
canonical numeral of an index in range. -/
def parseCanonicalNat (cs : List Char) : Option Nat :=
  if cs.isEmpty then none
  else if cs.all Char.isDigit then
    if cs.head? == some '0' && cs != ['0'] then none
    else some (cs.foldl (fun n c => n * 10 + (c.toNat - 48)) 0)
  else none

/-- JavaScript own-property member access `v[key]`.  Scalars have no own
properties of interest; arrays expose `length` and their elements under
canonical numeric keys; objects expose their entries. -/
def jsGet : JVal → String → Option JVal
  | .obj entries, key => assocGet entries key
  | .arr xs, key =>
    if key = "length" then some (.num (Int.ofNat xs.length))
    else
      match parseCanonicalNat key.data with
      | some i => xs.get? i
      | none => none
  | _, _ => none

/-- The JavaScript test `typeof v === 'object'` on a parser-produced value:
true for arrays and plain objects, false for scalars. -/
def isObj : JVal → Bool
  | .arr _ => true
  | .obj _ => true
  | _ => false

/-- JavaScript truthiness of a parser-produced value. -/
def jsTruthy : JVal → Bool
  | .str s => s ≠ ""
  | .num n => n ≠ 0
  | .bool b => b
  | .arr _ => true
  | .obj _ => true

mutual

/-- JavaScript `String(v)` on a parser-produced value. -/
def jsToString : JVal → String
  | .str s => s
  | .num n => toString n
  | .bool b => if b then "true" else "false"
  | .arr xs => jsToStringList xs
  | .obj _ => "[object Object]"

/-- JavaScript array stringification: elements joined with commas. -/
def jsToStringList : List JVal → String
  | [] => ""
  | [v] => jsToString v
  | v :: w :: rest => jsToString v ++ "," ++ jsToStringList (w :: rest)

end

/-- JavaScript `path.split('.')`: splits on every dot, keeping empty
segments; the empty string yields one empty segment. -/
def splitDotAux : List Char → List Char → List String
  | [], acc => [String.mk acc.reverse]
  | c :: cs, acc =>
    if c = '.' then String.mk acc.reverse :: splitDotAux cs []
    else splitDotAux cs (c :: acc)

def splitDot (s : String) : List String := splitDotAux s.data []

/-- The loop body of `dig` (src/zugferdParser.ts): for each key, bail out
with undefined when the current node is undefined or not object-typed,
otherwise move to the member. -/
def digKeys : Option JVal → List String → Option JVal
  | cur, [] => cur
  | cur, key :: rest =>
    match cur with
    | none => none
    | some v => if isObj v then digKeys (jsGet v key) rest else none

/-- `dig(obj, path)` from src/zugferdParser.ts: safe accessor drilling into
a parsed XML object using dot-separated keys; returns undefined when any
segment is missing. -/
def dig (cur : Option JVal) (path : String) : Option JVal :=
  digKeys cur (splitDot path)

/-- `text(obj, path)` from src/zugferdParser.ts: resolve the node; absent
resolves to the empty string; an object resolves to its `#text` member
(mixed text plus attributes) or empty; a scalar is stringified. -/
def text (cur : Option JVal) (path : String) : String :=
  match dig cur path with
  | none => ""
  | some v =>
    if isObj v then
      match jsGet v "#text" with
      | some inner => jsToString inner
      | none => ""
    else jsToString v

/-- `formatDate(raw)` from src/zugferdParser.ts: an 8-digit string (regex
caret backslash-d eight dollar) of shape YYYYMMDD is rewritten to
DD.MM.YYYY via slice(6,8), slice(4,6), slice(0,4); anything else passes
through unchanged. -/
def formatDate (raw : String) : String :=
  if raw.length = 8 ∧ raw.data.all Char.isDigit = true then
    String.mk ((raw.data.drop 6).take 2) ++ "." ++
      String.mk ((raw.data.drop 4).take 2) ++ "." ++
      String.mk (raw.data.take 4)
  else raw

structure InvoiceAddress where
  name : String
  street : String
  postalCode : String
  city : String
  country : String

structure InvoiceLineItem where
  position : String
  description : String
  quantity : String
  unit : String
  unitPrice : String
  taxRate : String
  total : String

structure InvoiceTaxBreakdown where
  rate : String
  basis : String
  amount : String

structure InvoiceData where
  zugferdVersion : Option String
  zugferdProfile : Option String
  seller : InvoiceAddress
  sellerTaxId : Option String
  sellerVatId : Option String
  sellerContact : Option String
  sellerEmail : Option String
  sellerPhone : Option String
  buyer : InvoiceAddress
  buyerVatId : Option String
  buyerReference : Option String
  invoiceNumber : String
  invoiceDate : String
  dueDate : Option String
  deliveryDate : Option String
  orderReference : Option String
  currency : String
  lineItems : List InvoiceLineItem
  totalNet : String
  totalTax : String
  totalGross : String
  taxBreakdown : Option (List InvoiceTaxBreakdown)
  paymentTerms : Option String
  paymentMeansType : Option String
  bankName : Option String
  iban : Option String
  bic : Option String
  paymentReference : Option String
  notes : Option String

/-- `parseAddress(party)` from src/zugferdParser.ts. -/
def parseAddress (party : Option JVal) : InvoiceAddress :=
  { name := text party "Name"
    street := text party "PostalTradeAddress.LineOne"
    postalCode := text party "PostalTradeAddress.PostcodeCode"
    city := text party "PostalTradeAddress.CityName"
    country := text party "PostalTradeAddress.CountryID" }

/-- `asArray(val)` from src/zugferdParser.ts: undefined and null become
the empty array, an array stays itself, anything else is wrapped. -/
def asArray : Option JVal → List JVal
  | none => []
  | some (.arr xs) => xs
  | some v => [v]

/-- The JavaScript idiom `s || undefined` used throughout the result
record: an empty string becomes an absent optional field. -/
def strOpt (s : String) : Option String :=
  if s = "" then none else some s

def lookupStr : List (String × String) → String → Option String
  | [], _ => none
  | (k, v) :: rest, key => if k = key then some v else lookupStr rest key

/-- `profileNames` table from `parseZugferdXml`. -/
def profileNames : List (String × String) :=
  [("A1", "MINIMUM"),
   ("A2", "BASIC WL"),
   ("A3", "BASIC"),
   ("A4", "EN 16931"),
   ("A5", "EXTENDED"),
   ("urn:factur-x.eu:1p0:minimum", "MINIMUM"),
   ("urn:factur-x.eu:1p0:basicwl", "BASIC WL"),
   ("urn:factur-x.eu:1p0:basic", "BASIC"),
   ("urn:cen.eu:en16931:2017", "EN 16931"),
   ("urn:cen.eu:en16931:2017#compliant#urn:factur-x.eu:1p0:extended", "EXTENDED")]

/-- `paymentMeansNames` table from src/zugferdParser.ts. -/
def paymentMeansNames : List (String × String) :=
  [("10", "Cash"),
   ("20", "Cheque"),
   ("30", "Credit transfer"),
   ("42", "Payment to bank account"),
   ("48", "Card payment"),
   ("49", "Direct debit"),
   ("57", "Standing agreement"),
   ("58", "SEPA credit transfer"),
   ("59", "SEPA direct debit")]

/-- The scheme attribute of one tax registration: `reg.ID` followed by
`id['@_schemeID']` guarded by `typeof id === 'object' && id !== null`. -/
def regScheme (reg : JVal) : Option JVal :=
  match jsGet reg "ID" with
  | some idv => if isObj idv then jsGet idv "@_schemeID" else none
  | none => none

/-- The strict comparison `scheme === 'VA'` from the registration loops:
true exactly when the scheme attribute is the string "VA". -/
def isSchemeVA (reg : JVal) : Bool :=
  match regScheme reg with
  | some (.str s) => s == "VA"
  | _ => false

/-- The strict comparison `scheme === 'FC'` from the seller loop. -/
def isSchemeFC (reg : JVal) : Bool :=
  match regScheme reg with
  | some (.str s) => s == "FC"
  | _ => false

/-- The seller registration loop of `parseZugferdXml`: a left-to-right
scan over the registrations, overwriting the pair (taxId, vatId) at each
matching scheme, so the last match of each scheme wins. -/
def sellerScan : List JVal → String × String → String × String
  | [], acc => acc
  | reg :: rest, acc =>
    if isSchemeVA reg then sellerScan rest (acc.1, text (some reg) "ID")
    else if isSchemeFC reg then sellerScan rest (text (some reg) "ID", acc.2)
    else sellerScan rest acc

/-- The buyer registration loop of `parseZugferdXml`: scan left to right
and stop (`break`) at the first registration of scheme VA. -/
def buyerScan : List JVal → String
  | [] => ""
  | reg :: rest =>
    if isSchemeVA reg then text (some reg) "ID" else buyerScan rest

/-- The per-line-item mapper inside `parseZugferdXml` (the `rawItems.map`
callback). -/
def mkLineItem (item : JVal) : InvoiceLineItem :=
  let qty := text (some item) "SpecifiedLineTradeDelivery.BilledQuantity"
  let unit :=
    match dig (some item) "SpecifiedLineTradeDelivery.BilledQuantity" with
    | some bq =>
      if isObj bq then
        match jsGet bq "@_unitCode" with
        | some u => jsToString u
        | none => ""
      else ""
    | none => ""
  let t1 := text (some item)
    "SpecifiedLineTradeSettlement.ApplicableTradeTax.0.RateApplicablePercent"
  let taxPercent :=
    if t1 = "" then
      text (some item)
        "SpecifiedLineTradeSettlement.ApplicableTradeTax.RateApplicablePercent"
    else t1
  { position := text (some item) "AssociatedDocumentLineDocument.LineID"
    description := text (some item) "SpecifiedTradeProduct.Name"
    quantity := qty
    unit := unit
    unitPrice := text (some item)
      "SpecifiedLineTradeAgreement.NetPriceProductTradePrice.ChargeAmount"
    taxRate := if taxPercent = "" then "" else taxPercent ++ "%"
    total := text (some item)
      "SpecifiedLineTradeSettlement.SpecifiedTradeSettlementLineMonetarySummation.LineTotalAmount" }

/-- The per-entry mapper for the settlement-level tax breakdown. -/
def mkTaxBreakdown (t : JVal) : InvoiceTaxBreakdown :=
  { rate := text (some t) "RateApplicablePercent" ++ "%"
    basis := text (some t) "BasisAmount"
    amount := text (some t) "CalculatedAmount" }

/-- The body of `parseZugferdXml` after the root check, mapping the root
element's subtree to the flat invoice data model.  All profile-table
values are nonempty strings, so the JavaScript truthiness test
`if (profileNames[zugferdProfile])` is written out as a lookup followed
by an emptiness test. -/
def buildInvoiceData (root : JVal) : InvoiceData :=
  let doc := jsGet root "ExchangedDocument"
  let context := jsGet root "ExchangedDocumentContext"
  let transaction := jsGet root "SupplyChainTradeTransaction"
  let agreement := dig transaction "ApplicableHeaderTradeAgreement"
  let delivery := dig transaction "ApplicableHeaderTradeDelivery"
  let settlement := dig transaction "ApplicableHeaderTradeSettlement"
  let totals := dig settlement "SpecifiedTradeSettlementHeaderMonetarySummation"
  let guidelineParam := dig context "GuidelineSpecifiedDocumentContextParameter"
  let zugferdVersion := text guidelineParam "ID"
  let businessProcess := dig context "BusinessProcessSpecifiedDocumentContextParameter"
  let zugferdProfileRaw := text businessProcess "ID"
  let zugferdProfile :=
    match lookupStr profileNames zugferdProfileRaw with
    | some p => if p = "" then zugferdProfileRaw else p
    | none => zugferdProfileRaw
  let seller := dig agreement "SellerTradeParty"
  let buyer := dig agreement "BuyerTradeParty"
  let sellerIds := sellerScan (asArray (dig seller "SpecifiedTaxRegistration")) ("", "")
  let buyerVatId := buyerScan (asArray (dig buyer "SpecifiedTaxRegistration"))
  let sellerContact := dig seller "DefinedTradeContact"
  let sellerContactName := text sellerContact "PersonName"
  let sellerEmail := text sellerContact "EmailURIUniversalCommunication.URIID"
  let sellerPhone := text sellerContact "TelephoneUniversalCommunication.CompleteNumber"
  let currency := text settlement "InvoiceCurrencyCode"
  let lineItems := (asArray (dig transaction "IncludedSupplyChainTradeLineItem")).map mkLineItem
  let taxBreakdown := (asArray (dig settlement "ApplicableTradeTax")).map mkTaxBreakdown
  let paymentMeans := dig settlement "SpecifiedTradeSettlementPaymentMeans"
  let paymentTypeCode := text paymentMeans "TypeCode"
  let terms := dig settlement "SpecifiedTradePaymentTerms"
  let dueDate := text terms "DueDateDateTime.DateTimeString"
  let noteTexts :=
    ((asArray (dig doc "IncludedNote")).map (fun n => text (some n) "Content")).filter
      (fun s => s ≠ "")
  { zugferdVersion := strOpt zugferdVersion
    zugferdProfile := strOpt zugferdProfile
    seller := parseAddress seller
    sellerTaxId := strOpt sellerIds.1
    sellerVatId := strOpt sellerIds.2
    sellerContact := strOpt sellerContactName
    sellerEmail := strOpt sellerEmail
    sellerPhone := strOpt sellerPhone
    buyer := parseAddress buyer
    buyerVatId := strOpt buyerVatId
    buyerReference := strOpt (text agreement "BuyerReference")
    invoiceNumber := text doc "ID"
    invoiceDate := formatDate (text doc "IssueDateTime.DateTimeString")
    dueDate := if dueDate = "" then none else some (formatDate dueDate)
    deliveryDate := strOpt (formatDate (text delivery
      "ActualDeliverySupplyChainEvent.OccurrenceDateTime.DateTimeString"))
    orderReference := strOpt (text agreement "BuyerOrderReferencedDocument.IssuerAssignedID")
    currency := currency
    lineItems := lineItems
    totalNet := text totals "TaxBasisTotalAmount"
    totalTax := text totals "TaxTotalAmount"
    totalGross := text totals "GrandTotalAmount"
    taxBreakdown := if taxBreakdown.length > 0 then some taxBreakdown else none
    paymentTerms := strOpt (text terms "Description")
    paymentMeansType :=
      match lookupStr paymentMeansNames paymentTypeCode with
      | some p => some p
      | none => strOpt paymentTypeCode
    bankName := strOpt (text paymentMeans "PayeeSpecifiedCreditorFinancialInstitution.Name")
    iban := strOpt (text paymentMeans "PayeePartyCreditorFinancialAccount.IBANID")
    bic := strOpt (text paymentMeans "PayeeSpecifiedCreditorFinancialInstitution.BICID")
    paymentReference := strOpt (text settlement "PaymentReference")
    notes := strOpt (String.intercalate "\n" noteTexts) }

/-- `isZugferdXml(xml)` from src/zugferdParser.ts, over the outcome of
the external XML parser: a parser exception is caught and yields false;
otherwise the result is whether `parsed.CrossIndustryInvoice` is defined. -/
def isZugferdXml : Except Unit JVal → Bool
  | .error _ => false
  | .ok parsed => (jsGet parsed "CrossIndustryInvoice").isSome

/-- `parseZugferdXml(xml)` from src/zugferdParser.ts, over the outcome of
the external XML parser: a parser exception propagates; a falsy root
(`if (!root)`) raises "Not a valid ZUGFeRD/CII XML document"; otherwise
the invoice data is built. -/
def parseZugferdXml : Except Unit JVal → Except String InvoiceData
  | .error _ => .error "XML parse error"
  | .ok parsed =>
    match jsGet parsed "CrossIndustryInvoice" with
    | none => .error "Not a valid ZUGFeRD/CII XML document"
    | some root =>
      if jsTruthy root then .ok (buildInvoiceData root)
      else .error "Not a valid ZUGFeRD/CII XML document"

/-! The PDF object graph, per the spec's external-interface description of
the pdf-lib collaborator: dictionaries, arrays, literal and hex strings
(carrying their decoded text), name objects, and streams (carrying their
decoded content).  A typed dictionary lookup returns nothing when the key
is missing or the value has a different type. -/

inductive PDFObject where
  | dict (entries : List (String × PDFObject))
  | array (elems : List PDFObject)
  | litString (s : String)
  | hexString (s : String)
  | name (n : String)
  | number (n : Int)
  | rawStream (contents : String)
  | stream (contents : String)

structure PDFDocument where
  catalog : List (String × PDFObject)

def pdfAssocGet : List (String × PDFObject) → String → Option PDFObject
  | [], _ => none
  | (k, v) :: rest, key => if k = key then some v else pdfAssocGet rest key

/-- `d.lookup(PDFName.of(key), PDFDict)`: pdf-lib's typed lookup returns
the entry when it is a dictionary and throws UnexpectedObjectTypeError
(modelled as `Except.error`) when the key is missing or the entry has a
different type; the non-throwing variant lookupMaybe is not what the
source calls. -/
def lookupDict (entries : List (String × PDFObject)) (key : String) :
    Except Unit (List (String × PDFObject)) :=
  match pdfAssocGet entries key with
  | some (.dict d) => Except.ok d
  | _ => Except.error ()

/-- `d.lookup(PDFName.of(key), PDFArray)`: typed lookup for an array;
throws when the key is missing or the entry has a different type. -/
def lookupArr (entries : List (String × PDFObject)) (key : String) :
    Except Unit (List PDFObject) :=
  match pdfAssocGet entries key with
  | some (.array xs) => Except.ok xs
  | _ => Except.error ()

/-- The name entry of a pair: decoded text for literal and hex strings,
empty for every other object (src/pdfReader.ts keeps fileName = ''). -/
def pdfFileName : PDFObject → String
  | .litString s => s
  | .hexString s => s
  | _ => ""

/-- `fileName.toLowerCase().endsWith('.xml')` (ASCII lowercasing). -/
def endsWithDotXml (fileName : String) : Bool :=
  let l := fileName.data.map Char.toLower
  let p := ['.', 'x', 'm', 'l']
  if p.length ≤ l.length then l.drop (l.length - p.length) == p else false

/-- The body of one matching iteration after the file specification has
been obtained: `fileSpec.lookup(PDFName.of('EF'), PDFDict)` is a typed
lookup, so a missing or mistyped EF entry throws (the `!efDict` guard in
the source is unreachable); `efDict.lookup(PDFName.of('F'))` is untyped,
so a missing F is undefined and the loop continues, as it also does when
F is not a stream (`bytes` stays undefined and `if (bytes)` fails). -/
def fileSpecStream (fileSpec : List (String × PDFObject)) :
    Except Unit (Option String) :=
  match lookupDict fileSpec "EF" with
  | .error e => .error e
  | .ok efDict =>
    .ok (match pdfAssocGet efDict "F" with
      | some (.rawStream s) => some s
      | some (.stream s) => some s
      | some _ => none
      | none => none)

/-- The pair-wise loop over the flat alternating name/file-spec array
(src/pdfReader.ts, index stepping by 2).  The name is read with an
untyped indexed lookup (out of range yields undefined, hence an empty
name), but for a name ending in ".xml" the file specification is read
with the typed `namesArray.lookup(i + 1, PDFDict)`, which throws when
that index is out of range (odd-length array) or the entry is not a
dictionary, making the `!fileSpec` guard unreachable. -/
def scanPairs : List PDFObject → Except Unit (Option String)
  | [] => .ok none
  | nameObj :: rest =>
    if endsWithDotXml (pdfFileName nameObj) then
      match rest with
      | [] => .error ()
      | fileSpec :: rest2 =>
        match fileSpec with
        | .dict fs =>
          (match fileSpecStream fs with
           | .error e => .error e
           | .ok (some s) => .ok (some s)
           | .ok none => scanPairs rest2)
        | _ => .error ()
    else
      match rest with
      | [] => .ok none
      | _ :: rest2 => scanPairs rest2

/-- `extractXmlAttachment(pdfDoc)` from src/pdfReader.ts: catalog to
`Names` to `EmbeddedFiles` to `Names` array, then the pair scan.  All
three navigation steps are typed lookups, so each raises when its entry
is missing or mistyped; the `if (!...) { return undefined; }` guards
after them are unreachable, because a successful typed lookup always
returns a truthy object. -/
def extractXmlAttachment (pdfDoc : PDFDocument) : Except Unit (Option String) :=
  match lookupDict pdfDoc.catalog "Names" with
  | .error e => .error e
  | .ok namesDict =>
    match lookupDict namesDict "EmbeddedFiles" with
    | .error e => .error e
    | .ok embeddedFilesDict =>
      match lookupArr embeddedFilesDict "Names" with
      | .error e => .error e
      | .ok namesArray => scanPairs namesArray

/-- A mapping node in the sense of the specification's generic-tree data
model, which distinguishes mappings from ordered sequences. -/
def isMapping : JVal → Bool
  | .obj _ => true
  | _ => false

/-- `Array.isArray` on a parser value: exactly the ordered-sequence case
of the specification's generic node. -/
def isSeq : JVal → Bool
  | .arr _ => true
  | _ => false

/-- Fixture: one seller tax registration of scheme VA with value
DE123456789, as fast-xml-parser renders the registration element. -/
def vaReg : JVal :=
  JVal.obj [("ID", JVal.obj [("#text", JVal.str "DE123456789"),
    ("@_schemeID", JVal.str "VA")])]

/-- Fixture: a CII tree whose seller carries exactly the one VA
registration `vaReg`. -/
def sellerVaTree : JVal :=
  JVal.obj [("CrossIndustryInvoice", JVal.obj [("SupplyChainTradeTransaction",
    JVal.obj [("ApplicableHeaderTradeAgreement",
      JVal.obj [("SellerTradeParty",
        JVal.obj [("SpecifiedTaxRegistration", JVal.arr [vaReg])])])])])]

/-- Fixture: one line item with position 1, quantity 2 (unit C62), net
price 10.00, line tax rate 19, line total 20.00, in the parser's
rendering (repeatable elements as arrays, attributes under prefixed
keys, numeric-looking tag values as numbers). -/
def c8Item : JVal :=
  JVal.obj [
    ("AssociatedDocumentLineDocument", JVal.obj [("LineID", JVal.num 1)]),
    ("SpecifiedTradeProduct", JVal.obj [("Name", JVal.str "Widget")]),
    ("SpecifiedLineTradeAgreement", JVal.obj [("NetPriceProductTradePrice",
      JVal.obj [("ChargeAmount", JVal.str "10.00")])]),
    ("SpecifiedLineTradeDelivery", JVal.obj [("BilledQuantity",
      JVal.obj [("#text", JVal.num 2), ("@_unitCode", JVal.str "C62")])]),
    ("SpecifiedLineTradeSettlement", JVal.obj [
      ("ApplicableTradeTax", JVal.arr [JVal.obj [("RateApplicablePercent", JVal.num 19)]]),
      ("SpecifiedTradeSettlementLineMonetarySummation",
        JVal.obj [("LineTotalAmount", JVal.str "20.00")])])]

/-- Fixture: a CII tree with the one line item `c8Item`, one
settlement-level tax entry (rate 19, basis 20.00, amount 3.80), currency
EUR and totals net 20.00 / tax 3.80 / gross 23.80. -/
def c8Tree : JVal :=
  JVal.obj [("CrossIndustryInvoice", JVal.obj [
    ("SupplyChainTradeTransaction", JVal.obj [
      ("IncludedSupplyChainTradeLineItem", JVal.arr [c8Item]),
      ("ApplicableHeaderTradeSettlement", JVal.obj [
        ("InvoiceCurrencyCode", JVal.str "EUR"),
        ("ApplicableTradeTax", JVal.arr [JVal.obj [
          ("RateApplicablePercent", JVal.num 19),
          ("BasisAmount", JVal.str "20.00"),
          ("CalculatedAmount", JVal.str "3.80")]]),
        ("SpecifiedTradeSettlementHeaderMonetarySummation", JVal.obj [
          ("TaxBasisTotalAmount", JVal.str "20.00"),
          ("TaxTotalAmount", JVal.str "3.80"),
          ("GrandTotalAmount", JVal.str "23.80")])])])])]

/-- Fixture: the parse of a document holding nothing but a root element
with empty content rendered as an empty object. -/
def minimalTree : JVal := JVal.obj [("CrossIndustryInvoice", JVal.obj [])]

/-! Theorems.  Claim identifiers refer to the frozen claim list. -/

theorem digKeys_none (ks : List String) : digKeys none ks = none := by
  cases ks <;> rfl

theorem digKeys_eq_none_iff (cur : Option JVal) (ks : List String) :
    digKeys cur ks = none ↔
      ∃ n, (n ≤ ks.length ∧ digKeys cur (ks.take n) = none) ∨
        (n < ks.length ∧ ∃ v, digKeys cur (ks.take n) = some v ∧ isObj v = false) := by
  induction ks generalizing cur with
  | nil =>
    constructor
    · intro h
      exact ⟨0, Or.inl ⟨Nat.le_refl 0, h⟩⟩
    · rintro ⟨n, h | h⟩
      · simpa using h.2
      · exact absurd h.1 (Nat.not_lt_zero n)
  | cons k rest ih =>
    cases cur with
    | none =>
      constructor
      · intro _
        exact ⟨0, Or.inl ⟨Nat.zero_le _, rfl⟩⟩
      · intro _
        exact digKeys_none (k :: rest)
    | some v =>
      cases hv : isObj v with
      | false =>
        constructor
        · intro _
          exact ⟨0, Or.inr ⟨Nat.succ_pos _, v, rfl, hv⟩⟩
        · intro _
          simp [digKeys, hv]
      | true =>
        have hstep : digKeys (some v) (k :: rest) = digKeys (jsGet v k) rest := by
          simp [digKeys, hv]
        have hpre : ∀ n, digKeys (some v) ((k :: rest).take (n + 1))
            = digKeys (jsGet v k) (rest.take n) := by
          intro n
          simp [digKeys, hv]
        rw [hstep, ih (jsGet v k)]
        constructor
        · rintro ⟨n, h | h⟩
          · exact ⟨n + 1, Or.inl ⟨Nat.succ_le_succ h.1, by rw [hpre]; exact h.2⟩⟩
          · obtain ⟨hlt, w, hw, how⟩ := h
            exact ⟨n + 1, Or.inr ⟨Nat.succ_lt_succ hlt, w, by rw [hpre]; exact hw, how⟩⟩
        · rintro ⟨n, h | h⟩
          · cases n with
            | zero =>
              have h2 := h.2
              simp [digKeys] at h2
            | succ m =>
              refine ⟨m, Or.inl ⟨Nat.le_of_succ_le_succ h.1, ?_⟩⟩
              rw [← hpre]
              exact h.2
          · cases n with
            | zero =>
              obtain ⟨_, w, hw, how⟩ := h
              have hw' : v = w := by simpa [digKeys] using hw
              rw [← hw'] at how
              rw [hv] at how
              cases how
            | succ m =>
              obtain ⟨hlt, w, hw, how⟩ := h
              refine ⟨m, Or.inr ⟨Nat.lt_of_succ_lt_succ hlt, w, ?_, how⟩⟩
              rw [← hpre]
              exact hw

/-- Claim C1 counterexample: the parse of a document whose root element is
present but empty (fast-xml-parser renders an empty element as the empty
string) has the root present, yet `parseZugferdXml` raises, because the
source guards with the falsy test `if (!root)`. -/
theorem C1_counterexample :
    (jsGet (JVal.obj [("CrossIndustryInvoice", JVal.str "")])
        "CrossIndustryInvoice").isSome = true
    ∧ (parseZugferdXml (Except.ok (JVal.obj [("CrossIndustryInvoice",
        JVal.str "")]))).isOk = false :=
  ⟨rfl, rfl⟩

/-- Claim C1 (amended): `parseZugferdXml` raises exactly when the XML
parser raised or the root element is missing or its parsed value is falsy
(for instance the empty string that an empty root element parses to); for
every parse outcome whose root value is present and truthy it returns an
`InvoiceData` and never raises, no matter which sub-elements are missing
or malformed. -/
theorem C1_parse_ok_iff (p : Except Unit JVal) :
    (parseZugferdXml p).isOk =
      (match p with
       | .error _ => false
       | .ok parsed =>
         match jsGet parsed "CrossIndustryInvoice" with
         | none => false
         | some root => jsTruthy root) := by
  cases p with
  | error e => rfl
  | ok parsed =>
    simp only [parseZugferdXml]
    cases hr : jsGet parsed "CrossIndustryInvoice" with
    | none => rfl
    | some root =>
      cases ht : jsTruthy root <;> simp [ht, Except.isOk, Except.toBool]

/-- Claim C2 counterexample: `dig` does not return absent as soon as a
prefix of the path resolves to a non-mapping: on the tree with key "a"
bound to a sequence, the prefix "a" resolves to a sequence (not a
mapping), yet the full path "a.0" resolves to the sequence's first
element rather than to absent. -/
theorem C2_counterexample :
    dig (some (JVal.obj [("a", JVal.arr [JVal.str "x"])])) "a"
      = some (JVal.arr [JVal.str "x"])
    ∧ isMapping (JVal.arr [JVal.str "x"]) = false
    ∧ dig (some (JVal.obj [("a", JVal.arr [JVal.str "x"])])) "a.0"
      = some (JVal.str "x") :=
  ⟨rfl, rfl, rfl⟩

/-- Claim C2 (amended): dig(T, P) returns absent exactly when some prefix
of P resolves to a node that is neither a mapping nor a sequence (with
further segments remaining) or is itself absent; sequences are traversed
by canonical numeric-index segments.  Totality (never raises) is by
construction. -/
theorem C2_dig_absent_iff (cur : Option JVal) (path : String) :
    dig cur path = none ↔
      ∃ n, (n ≤ (splitDot path).length ∧ digKeys cur ((splitDot path).take n) = none) ∨
        (n < (splitDot path).length ∧
          ∃ v, digKeys cur ((splitDot path).take n) = some v ∧ isObj v = false) :=
  digKeys_eq_none_iff cur (splitDot path)

/-- Claim C3: `isZugferdXml` is false on a parser exception (caught, not
propagated) and on any tree lacking the root element, and true whenever
the root element is present, including the minimal document consisting of
one empty root element of the recognized name. -/
theorem C3_isZugferdXml_spec :
    (∀ e : Unit, isZugferdXml (Except.error e) = false)
    ∧ (∀ t : JVal, jsGet t "CrossIndustryInvoice" = none →
        isZugferdXml (Except.ok t) = false)
    ∧ (∀ (t v : JVal), jsGet t "CrossIndustryInvoice" = some v →
        isZugferdXml (Except.ok t) = true)
    ∧ isZugferdXml (Except.ok (JVal.obj [("CrossIndustryInvoice",
        JVal.str "")])) = true := by
  refine ⟨fun e => rfl, ?_, ?_, rfl⟩
  · intro t h
    simp [isZugferdXml, h]
  · intro t v h
    simp [isZugferdXml, h]

/-- Claim C3 witness: the third conjunct applied to a tree with the root
element present. -/
theorem C3_witness :
    isZugferdXml (Except.ok (JVal.obj [("CrossIndustryInvoice",
      JVal.obj [])])) = true :=
  C3_isZugferdXml_spec.2.2.1 (JVal.obj [("CrossIndustryInvoice", JVal.obj [])])
    (JVal.obj []) rfl

theorem isSchemeVA_false_of_FC (r : JVal) (h : isSchemeFC r = true) :
    isSchemeVA r = false := by
  unfold isSchemeFC at h
  unfold isSchemeVA
  split at h
  next s heq =>
    have hs : s = "FC" := by simpa using h
    subst hs
    rfl
  next => simp at h

theorem sellerScan_append (xs ys : List JVal) (acc : String × String) :
    sellerScan (xs ++ ys) acc = sellerScan ys (sellerScan xs acc) := by
  induction xs generalizing acc with
  | nil => rfl
  | cons x xs ih =>
    cases hva : isSchemeVA x <;> cases hfc : isSchemeFC x <;>
      simp [sellerScan, hva, hfc, ih]

theorem sellerScan_snd_of_no_va (regs : List JVal) :
    ∀ acc : String × String, (∀ r ∈ regs, isSchemeVA r = false) →
      (sellerScan regs acc).2 = acc.2 := by
  induction regs with
  | nil => intro acc _; rfl
  | cons reg rest ih =>
    intro acc h
    have hva := h reg (List.mem_cons_self reg rest)
    have hrest : ∀ r ∈ rest, isSchemeVA r = false :=
      fun r hr => h r (List.mem_cons_of_mem _ hr)
    cases hfc : isSchemeFC reg
    · simpa [sellerScan, hva, hfc] using ih acc hrest
    · simpa [sellerScan, hva, hfc] using
        ih (text (some reg) "ID", acc.2) hrest

theorem sellerScan_fst_of_no_fc (regs : List JVal) :
    ∀ acc : String × String, (∀ r ∈ regs, isSchemeFC r = false) →
      (sellerScan regs acc).1 = acc.1 := by
  induction regs with
  | nil => intro acc _; rfl
  | cons reg rest ih =>
    intro acc h
    have hfc := h reg (List.mem_cons_self reg rest)
    have hrest : ∀ r ∈ rest, isSchemeFC r = false :=
      fun r hr => h r (List.mem_cons_of_mem _ hr)
    cases hva : isSchemeVA reg
    · simpa [sellerScan, hva, hfc] using ih acc hrest
    · simpa [sellerScan, hva, hfc] using
        ih (acc.1, text (some reg) "ID") hrest

theorem buyerScan_first_va : ∀ (pre post : List JVal) (reg : JVal),
    (∀ r ∈ pre, isSchemeVA r = false) → isSchemeVA reg = true →
    buyerScan (pre ++ reg :: post) = text (some reg) "ID"
  | [], _, reg, _, hva => by simp [buyerScan, hva]
  | x :: xs, post, reg, hpre, hva => by
    have hx := hpre x (List.mem_cons_self x xs)
    have := buyerScan_first_va xs post reg
      (fun r hr => hpre r (List.mem_cons_of_mem _ hr)) hva
    simpa [buyerScan, hx] using this

/-- Claim C4: in the seller registration scan, the last registration of a
given scheme wins for both the VAT id (scheme VA) and the fiscal code
(scheme FC); in the buyer scan, the first registration of scheme VA wins;
and end to end, a seller with one VA registration of value DE123456789
yields sellerVatId DE123456789 with sellerTaxId absent. -/
theorem C4_tax_registration_scan :
    (∀ (pre post : List JVal) (reg : JVal) (acc : String × String),
        isSchemeVA reg = true → (∀ r ∈ post, isSchemeVA r = false) →
        (sellerScan (pre ++ reg :: post) acc).2 = text (some reg) "ID")
    ∧ (∀ (pre post : List JVal) (reg : JVal) (acc : String × String),
        isSchemeFC reg = true → (∀ r ∈ post, isSchemeFC r = false) →
        (sellerScan (pre ++ reg :: post) acc).1 = text (some reg) "ID")
    ∧ (∀ (pre post : List JVal) (reg : JVal),
        (∀ r ∈ pre, isSchemeVA r = false) → isSchemeVA reg = true →
        buyerScan (pre ++ reg :: post) = text (some reg) "ID")
    ∧ (parseZugferdXml (Except.ok sellerVaTree)).map
        (fun d => (d.sellerVatId, d.sellerTaxId))
      = Except.ok (some "DE123456789", none) := by
  refine ⟨?_, ?_, buyerScan_first_va, rfl⟩
  · intro pre post reg acc hva hpost
    rw [sellerScan_append]
    have hstep : sellerScan (reg :: post) (sellerScan pre acc)
        = sellerScan post ((sellerScan pre acc).1, text (some reg) "ID") := by
      simp [sellerScan, hva]
    rw [hstep, sellerScan_snd_of_no_va post _ hpost]
  · intro pre post reg acc hfc hpost
    have hva := isSchemeVA_false_of_FC reg hfc
    rw [sellerScan_append]
    have hstep : sellerScan (reg :: post) (sellerScan pre acc)
        = sellerScan post (text (some reg) "ID", (sellerScan pre acc).2) := by
      simp [sellerScan, hva, hfc]
    rw [hstep, sellerScan_fst_of_no_fc post _ hpost]

/-- Claim C4 witness: the last-wins and first-wins statements applied to
the one-registration fixture. -/
theorem C4_witness :
    (sellerScan [vaReg] ("", "")).2 = text (some vaReg) "ID"
    ∧ buyerScan [vaReg] = text (some vaReg) "ID" :=
  ⟨C4_tax_registration_scan.1 [] [] vaReg ("", "") rfl (fun _ hr => nomatch hr),
   C4_tax_registration_scan.2.2.1 [] [] vaReg (fun _ hr => nomatch hr) rfl⟩

/-- Claim C5 (the code contradicts it): because the navigation steps are
pdf-lib typed lookups, which throw when an entry is missing or mistyped,
the locator raises on a catalog without a Names dictionary instead of
returning absent; it likewise raises when EmbeddedFiles or the names
array is missing, when a matching pair's file specification is missing
(odd-length array ending in an .xml name) or not a dictionary, and when
a matching file specification lacks EF.  Non-matching names are still
skipped (their typed lookup is never reached), a missing F still lets
the scan continue, and a well-formed matching pair still returns its
decoded stream text. -/
theorem C5_extractXmlAttachment_raises :
    extractXmlAttachment ⟨[]⟩ = Except.error ()
    ∧ extractXmlAttachment ⟨[("Names", PDFObject.dict [])]⟩ = Except.error ()
    ∧ extractXmlAttachment ⟨[("Names", PDFObject.dict [("EmbeddedFiles",
        PDFObject.dict [])])]⟩ = Except.error ()
    ∧ scanPairs [PDFObject.litString "factur-x.xml"] = Except.error ()
    ∧ scanPairs [PDFObject.litString "factur-x.xml",
        PDFObject.dict []] = Except.error ()
    ∧ scanPairs [PDFObject.litString "report.pdf"] = Except.ok none
    ∧ scanPairs [PDFObject.litString "factur-x.xml",
        PDFObject.dict [("EF", PDFObject.dict [])],
        PDFObject.litString "other.xml",
        PDFObject.dict [("EF", PDFObject.dict [("F",
          PDFObject.rawStream "<second/>")])]] = Except.ok (some "<second/>")
    ∧ extractXmlAttachment ⟨[("Names", PDFObject.dict [("EmbeddedFiles",
        PDFObject.dict [("Names", PDFObject.array [
          PDFObject.litString "factur-x.xml",
          PDFObject.dict [("EF", PDFObject.dict [("F",
            PDFObject.rawStream "<xml/>")])]])])])]⟩
      = Except.ok (some "<xml/>") :=
  ⟨rfl, rfl, rfl, rfl, rfl, rfl, rfl, rfl⟩

/-- Claim C6: asArray sends absent to the empty sequence, wraps any bare
scalar or object into a one-element sequence, returns an existing
sequence unchanged, and is therefore idempotent. -/
theorem C6_asArray_spec :
    asArray none = []
    ∧ (∀ v : JVal, isSeq v = false → asArray (some v) = [v])
    ∧ (∀ xs : List JVal, asArray (some (JVal.arr xs)) = xs)
    ∧ (∀ v : Option JVal, asArray (some (JVal.arr (asArray v))) = asArray v) := by
  refine ⟨rfl, ?_, fun xs => rfl, fun v => rfl⟩
  intro v hv
  cases v with
  | arr xs => simp [isSeq] at hv
  | str s => rfl
  | num n => rfl
  | bool b => rfl
  | obj entries => rfl

/-- Claim C6 witness: the wrapping case applied to a bare scalar. -/
theorem C6_witness : asArray (some (JVal.str "x")) = [JVal.str "x"] :=
  C6_asArray_spec.2.1 (JVal.str "x") rfl

/-- Claim C7: formatDate rewrites exactly the 8-digit strings, read as
YYYYMMDD, into DD.MM.YYYY, and passes every other string through
unchanged; in particular "20240115" becomes "15.01.2024" and
"not-a-date" is returned as is. -/
theorem C7_formatDate_spec :
    formatDate "20240115" = "15.01.2024"
    ∧ formatDate "not-a-date" = "not-a-date"
    ∧ (∀ s : String, ¬(s.length = 8 ∧ s.data.all Char.isDigit = true) →
        formatDate s = s)
    ∧ (∀ y mo d : List Char, y.length = 4 → mo.length = 2 → d.length = 2 →
        (y ++ mo ++ d).all Char.isDigit = true →
        formatDate (String.mk (y ++ mo ++ d)) =
          String.mk d ++ "." ++ String.mk mo ++ "." ++ String.mk y) := by
  refine ⟨rfl, rfl, ?_, ?_⟩
  · intro s h
    unfold formatDate
    rw [if_neg h]
  · intro y mo d hy hmo hd hall
    have hguard : (String.mk (y ++ mo ++ d)).length = 8 ∧
        (String.mk (y ++ mo ++ d)).data.all Char.isDigit = true := by
      refine ⟨?_, hall⟩
      show (y ++ mo ++ d).length = 8
      simp [hy, hmo, hd]
    unfold formatDate
    rw [if_pos hguard]
    have hym : (y ++ mo).length = 6 := by simp [hy, hmo]
    have f1 : ((y ++ mo ++ d).drop 6).take 2 = d := by
      rw [List.drop_left' hym, ← hd, List.take_length]
    have f2 : ((y ++ mo ++ d).drop 4).take 2 = mo := by
      rw [List.append_assoc, List.drop_left' hy, List.take_left' hmo]
    have f3 : (y ++ mo ++ d).take 4 = y := by
      rw [List.append_assoc]
      exact List.take_left' hy
    show String.mk (((y ++ mo ++ d).drop 6).take 2) ++ "." ++
        String.mk (((y ++ mo ++ d).drop 4).take 2) ++ "." ++
        String.mk ((y ++ mo ++ d).take 4) =
      String.mk d ++ "." ++ String.mk mo ++ "." ++ String.mk y
    rw [f1, f2, f3]

/-- Claim C7 witness: the pass-through case applied to a short string. -/
theorem C7_witness :
    formatDate "abc" = "abc" :=
  C7_formatDate_spec.2.2.1 "abc" (by decide)

/-- Claim C8: the line-item mapper looks the tax rate up first at the
single-element path (ApplicableTradeTax.0.RateApplicablePercent), then at
the direct path (ApplicableTradeTax.RateApplicablePercent); a non-empty
rate is suffixed with a percent sign, and when both lookups are empty the
taxRate is the empty string; end to end, the one-line-item fixture with
rate 19 yields lineItems[0].taxRate = "19%", taxBreakdown[0].rate = "19%"
and totalGross = "23.80". -/
theorem C8_line_item_tax_rate :
    (∀ item : JVal,
        text (some item)
          "SpecifiedLineTradeSettlement.ApplicableTradeTax.0.RateApplicablePercent" ≠ "" →
        (mkLineItem item).taxRate =
          text (some item)
            "SpecifiedLineTradeSettlement.ApplicableTradeTax.0.RateApplicablePercent" ++ "%")
    ∧ (∀ item : JVal,
        text (some item)
          "SpecifiedLineTradeSettlement.ApplicableTradeTax.0.RateApplicablePercent" = "" →
        text (some item)
          "SpecifiedLineTradeSettlement.ApplicableTradeTax.RateApplicablePercent" ≠ "" →
        (mkLineItem item).taxRate =
          text (some item)
            "SpecifiedLineTradeSettlement.ApplicableTradeTax.RateApplicablePercent" ++ "%")
    ∧ (∀ item : JVal,
        text (some item)
          "SpecifiedLineTradeSettlement.ApplicableTradeTax.0.RateApplicablePercent" = "" →
        text (some item)
          "SpecifiedLineTradeSettlement.ApplicableTradeTax.RateApplicablePercent" = "" →
        (mkLineItem item).taxRate = "")
    ∧ (parseZugferdXml (Except.ok c8Tree)).map
        (fun d => (d.lineItems.map (fun li => li.taxRate),
          d.taxBreakdown.map (fun ts => ts.map (fun t => t.rate)),
          d.totalGross))
      = Except.ok (["19%"], some ["19%"], "23.80") := by
  refine ⟨?_, ?_, ?_, rfl⟩
  · intro item h
    simp [mkLineItem, h]
  · intro item h1 h2
    simp [mkLineItem, h1, h2]
  · intro item h1 h2
    simp [mkLineItem, h1, h2]

/-- Claim C8 witness: the single-element-path case applied to the line
item fixture, whose rate renders as the number 19. -/
theorem C8_witness :
    (mkLineItem c8Item).taxRate =
      text (some c8Item)
        "SpecifiedLineTradeSettlement.ApplicableTradeTax.0.RateApplicablePercent" ++ "%" :=
  C8_line_item_tax_rate.1 c8Item (by decide)

/-- Claim C9: every successful extraction returns the full record built
from the root subtree, in which invoiceNumber, invoiceDate, currency,
totalNet, totalTax, totalGross, seller and buyer are string-typed and
address-typed fields that are always present; on the minimal tree with an
empty root object all of them are present as empty strings and empty
addresses. -/
theorem C9_required_fields :
    (∀ (t root : JVal), jsGet t "CrossIndustryInvoice" = some root →
        jsTruthy root = true →
        parseZugferdXml (Except.ok t) = Except.ok (buildInvoiceData root))
    ∧ (parseZugferdXml (Except.ok minimalTree)).map
        (fun d => (d.invoiceNumber, d.invoiceDate, d.currency,
          d.totalNet, d.totalTax, d.totalGross, d.seller, d.buyer))
      = Except.ok ("", "", "", "", "", "",
          ⟨"", "", "", "", ""⟩, ⟨"", "", "", "", ""⟩) := by
  refine ⟨?_, rfl⟩
  intro t root h ht
  simp [parseZugferdXml, h, ht]

/-- Claim C9 witness: success on the minimal tree. -/
theorem C9_witness :
    parseZugferdXml (Except.ok minimalTree)
      = Except.ok (buildInvoiceData (JVal.obj [])) :=
  C9_required_fields.1 minimalTree (JVal.obj []) rfl rfl

/-- Claim C10 counterexample: on the parse of an empty root element the
validity check accepts (the root key is defined) while the extractor
raises (the root value is falsy), so acceptance by isZugferdXml does not
imply that parseZugferdXml returns. -/
theorem C10_counterexample :
    isZugferdXml (Except.ok (JVal.obj [("CrossIndustryInvoice",
      JVal.str "")])) = true
    ∧ (parseZugferdXml (Except.ok (JVal.obj [("CrossIndustryInvoice",
        JVal.str "")]))).isOk = false :=
  ⟨rfl, rfl⟩

/-- Claim C10 (amended): whenever the root element is present with a
truthy parsed value, isZugferdXml returns true and parseZugferdXml
returns an InvoiceData without raising; when the root parses to a falsy
value (such as the empty string of an empty root element), isZugferdXml
returns true but parseZugferdXml raises. -/
theorem C10_valid_truthy_parse_ok (t root : JVal)
    (h : jsGet t "CrossIndustryInvoice" = some root)
    (ht : jsTruthy root = true) :
    isZugferdXml (Except.ok t) = true
    ∧ (parseZugferdXml (Except.ok t)).isOk = true := by
  constructor
  · simp [isZugferdXml, h]
  · simp [parseZugferdXml, h, ht, Except.isOk, Except.toBool]

/-- Claim C10 witness: the amended implication applied to the minimal
tree with a truthy (empty-object) root value. -/
theorem C10_witness :
    isZugferdXml (Except.ok minimalTree) = true
    ∧ (parseZugferdXml (Except.ok minimalTree)).isOk = true :=
  C10_valid_truthy_parse_ok minimalTree (JVal.obj []) rfl rfl
